import Mathlib

/-!
Verification of the DeepFakeStudio backend orchestrator
(`backend/comfy_client.py`, `backend/main.py`) against its design
specification.  The Python source is shallowly embedded as executable Lean
functions: external effects (filesystem, the remote compute service, the
encode/concat tool, and the stop flag set by concurrent requests) are
supplied by explicit environment records, and exceptions are modelled with
`Except` / `Option` results.
-/

deriving instance DecidableEq for Except

namespace DFS

/-- Python `str.startswith`, computed on the underlying character lists. -/
def pyStartsWith (s pre : String) : Bool :=
  pre.data.isPrefixOf s.data

/-! ## Remote generation client: output retrieval (`comfy_client.generate_clip`, tail) -/

/-- One entry of a node's output listing (`item['filename']`). -/
structure OutputItem where
  filename : String
deriving Repr, DecidableEq

/-- One node's output listing in the job history.  The `videos` / `gifs`
fields are `none` when the corresponding key is absent from the dict. -/
structure NodeOutput where
  videos : Option (List OutputItem)
  gifs : Option (List OutputItem)
deriving Repr, DecidableEq

/-- First item of `items` whose filename starts with `pfx`
(the inner `for item in ...: if item['filename'].startswith(...)` loops). -/
def findPfxMatch (pfx : String) (items : List OutputItem) : Option String :=
  (items.find? (fun it => pyStartsWith it.filename pfx)).map OutputItem.filename

/-- Scan one node's output: its `videos` list first, then its `gifs` list. -/
def nodeMatch (pfx : String) (n : NodeOutput) : Option String :=
  match n.videos.bind (findPfxMatch pfx) with
  | some f => some f
  | none => n.gifs.bind (findPfxMatch pfx)

/-- The retrieval step of `generate_clip` (comfy_client.py lines 241-257):
scan `outputs` (a dict in insertion order, embedded as an association list)
for the first filename matching the requested output-name hint; fall back to
`outputs["114"]["videos"][0]` when `"114"` is present with a `videos` key;
otherwise return Python `None` (`Except.ok none`).  Indexing `[0]` into an
empty `videos` list raises `IndexError` (`Except.error`). -/
def retrieveOutput (outputs : List (String × NodeOutput)) (pfx : String) :
    Except String (Option String) :=
  match outputs.findSome? (fun e => nodeMatch pfx e.2) with
  | some f => Except.ok (some f)
  | none =>
    match outputs.find? (fun e => e.1 == "114") with
    | some e =>
      match e.2.videos with
      | some items =>
        match items.head? with
        | some it => Except.ok (some it.filename)
        | none => Except.error "IndexError"
      | none => Except.ok none
    | none => Except.ok none

/-- All filenames of `outputs` in the order the retrieval loop visits them
(per node: videos first, then gifs). -/
def scanOrder (outputs : List (String × NodeOutput)) : List String :=
  outputs.flatMap
    (fun e => (e.2.videos.getD []).map OutputItem.filename
      ++ (e.2.gifs.getD []).map OutputItem.filename)

/-- The `videos` listing of the designated default output slot (node "114"),
when node "114" is present and has a `videos` key. -/
def slot114videos (outputs : List (String × NodeOutput)) : Option (List OutputItem) :=
  (outputs.find? (fun e => e.1 == "114")).bind (fun e => e.2.videos)

/-! ## Remote generation client: workflow construction (`comfy_client.generate_clip`, head) -/

/-- A mask point-set as stored in the mask side file: a JSON object,
embedded as an association list from keys (such as "positive" / "negative")
to coordinate lists. -/
structure MaskPoints where
  entries : List (String × List (Int × Int))
deriving Repr, DecidableEq

/-- Python `dict.get(key, default)`. -/
def MaskPoints.get (m : MaskPoints) (k : String) (d : List (Int × Int)) :
    List (Int × Int) :=
  match m.entries.find? (fun e => e.1 == k) with
  | some e => e.2
  | none => d

/-- Python truthiness of `mask_points` at `if mask_points:`:
`None` is falsy, a dict is truthy iff non-empty. -/
def maskTruthy (mp : Option MaskPoints) : Bool :=
  match mp with
  | none => false
  | some m => !m.entries.isEmpty

/-- `json.dumps` of one coordinate pair. -/
def dumpsPoint (p : Int × Int) : String :=
  "[" ++ toString p.1 ++ ", " ++ toString p.2 ++ "]"

/-- `json.dumps` of a coordinate list. -/
def dumpsPoints (ps : List (Int × Int)) : String :=
  "[" ++ String.intercalate ", " (ps.map dumpsPoint) ++ "]"

/-- `json.dumps` of the whole mask object. -/
def dumpsMask (m : MaskPoints) : String :=
  "\x7b" ++
    String.intercalate ", "
      (m.entries.map (fun e => "\x22" ++ e.1 ++ "\x22: " ++ dumpsPoints e.2)) ++
  "\x7d"

/-- The slice of the workflow template that `generate_clip` mutates
(nodes 83, 76, 77, 79, 78, 114, 3). -/
structure Workflow where
  value83 : Int
  value76 : Int
  points_store : String
  coordinates : String
  neg_coordinates : String
  video79 : String
  image78 : String
  fnamePfx : String
  seed : Int
deriving Repr, DecidableEq

/-- Workflow construction in `generate_clip` (comfy_client.py lines 201-226):
resolution from `video_id`, mask substitution guarded by Python truthiness of
`mask_points`, asset names, output-name hint, and the seed rule
`if seed: ... else: int(time.time()*1000) % 10000000000` where `nowMs`
stands for `int(time.time() * 1000)`. -/
def buildWorkflow (tmpl : Workflow) (vidName imgName : String)
    (videoId : Option String) (outputFilename : String)
    (maskPoints : Option MaskPoints) (seed : Option Int) (nowMs : Nat) :
    Workflow :=
  let wh : Int × Int :=
    if videoId == some "Video1" || videoId == some "Video3" then (832, 480)
    else if videoId == some "Video2" then (480, 832)
    else (832, 480)
  let w := { tmpl with value83 := wh.1, value76 := wh.2 }
  let w :=
    if maskTruthy maskPoints then
      match maskPoints with
      | some m =>
        { w with points_store := dumpsMask m,
                 coordinates := dumpsPoints (m.get "positive" []),
                 neg_coordinates := dumpsPoints (m.get "negative" []) }
      | none => w
    else w
  let w := { w with video79 := vidName, image78 := imgName,
                    fnamePfx := outputFilename }
  let seedVal : Int :=
    match seed with
    | some sv => if sv ≠ 0 then sv else (nowMs : Int) % 10000000000
    | none => (nowMs : Int) % 10000000000
  { w with seed := seedVal }

/-! ## Worker (`main.run_queue_processor`)

Filesystem paths are embedded as segment lists (`INPUTS_DIR/<vid>/...` as
`["inputs", "videos", vid, ...]`, `OUTPUTS_DIR/<vid>/...` as
`["outputs", vid, ...]`).  External effects of one queued unit are supplied
by an `Env`: the pre-run filesystem, the mask side files, the character
images in the assets directory, the outcome of each remote generation
attempt, and the stop requests arriving from concurrent `/stop` calls
(one Boolean per stop-flag read, in program order).  `move_comfy_output`'s
internal polling is folded into the per-pass outcome. -/

/-- A filesystem path, as a list of segments. -/
abbrev FPath := List String

/-- One entry of a clip's `actions` list (model `ClipAction`). -/
structure ClipAction where
  pass_num : Int
  character : String
deriving Repr, DecidableEq

/-- One entry of the job profile's `clips` list (the fields
`run_queue_processor` reads). -/
structure ClipInfo where
  clip_id : String
  path : FPath
  type : String
  actions : List ClipAction
deriving Repr, DecidableEq

/-- What the external world does when one pass calls
`comfy_client.generate_clip` and then `move_comfy_output`. -/
inductive PassOutcome where
  /-- `generate_clip` raises (upload/queue/timeout failure, ...). -/
  | genExn (msg : String)
  /-- `generate_clip` returns but `move_comfy_output` returns `False`. -/
  | moveFail
  /-- the artifact is found and copied to `temp_out`. -/
  | success
deriving Repr, DecidableEq

/-- External world of one queued unit. -/
structure Env where
  /-- result of the `t`-th `stop_event.is_set()` read after the unit's
  `stop_event.clear()`: whether a `/stop` request has arrived by then. -/
  stopReads : Nat → Bool
  /-- mask side file keyed by (clip id, pass number): `none` when the file
  does not exist, `some (.error e)` when `json.load` raises, `some (.ok m)`
  when it parses. -/
  maskFile : String → Int → Option (Except String MaskPoints)
  /-- whether the assets directory holds the given file name. -/
  charExists : String → Bool
  /-- pre-run filesystem existence. -/
  exists0 : FPath → Bool
  /-- outcome of the generation attempt keyed by (clip id, pass number). -/
  passOutcome : String → Int → PassOutcome

/-- Worker-visible mutable state: the stop-read counter, the stop flag, the
`processing_status["last_completed"]` field, the clips committed so far, and
the files created under the outputs directory so far. -/
structure PState where
  t : Nat
  flag : Bool
  lastCompleted : Option String
  committed : List String
  created : List FPath
deriving Repr, DecidableEq

/-- One `stop_event.is_set()` read. -/
def checkStop (env : Env) (s : PState) : Bool × PState :=
  let fl := s.flag || env.stopReads s.t
  (fl, { s with flag := fl, t := s.t + 1 })

/-- `Path.exists()` during the run: present before the run or created by it. -/
def fileExists (env : Env) (s : PState) (p : FPath) : Bool :=
  env.exists0 p || s.created.contains p

/-- The `"videos"` marker cleanup applied to a clip's declared relative
path (main.py lines 191-197 and 493-501). -/
def cleanRelPath (parts : FPath) : FPath :=
  match parts.indexOf? "videos" with
  | some idx => parts.drop (idx + 2)
  | none => parts

/-- The clip's original input under the project's input root
(`INPUTS_DIR / video_id / cleaned`). -/
def originalSourcePath (vid : String) (clip : ClipInfo) : FPath :=
  ["inputs", "videos", vid] ++ cleanRelPath clip.path

/-- The per-pass output-name hint `DF_<vid>_<clip>_pass<n>`. -/
def jobPfx (vid cid : String) (p : Int) : String :=
  "DF_" ++ vid ++ "_" ++ cid ++ "_pass" ++ toString p

/-- The `temp_out` path a successful pass is moved to. -/
def tempOutPath (vid cid : String) (p : Int) : FPath :=
  ["outputs", vid, jobPfx vid cid p ++ ".mp4"]

/-- What one attempted pass did (instrumentation record). -/
inductive PassResult where
  /-- `json.load` of the mask file raised; the exception escapes. -/
  | maskError (msg : String)
  /-- neither `custom_<name>.png` nor `<name>.png` exists; the pass is
  skipped by `continue`. -/
  | noCharImage
  /-- `generate_clip` raised; caught, remaining passes abandoned. -/
  | genExn (msg : String)
  /-- no artifact was produced; remaining passes abandoned. -/
  | moveFail
  /-- the retrieved artifact was copied to the given path. -/
  | ok (artifact : FPath)
deriving Repr, DecidableEq

/-- Instrumentation record of one attempted pass: its index, the source
video handed to it, the mask point-set forwarded to `generate_clip`, and
what happened. -/
structure PassRec where
  passNum : Int
  src : FPath
  mask : Option MaskPoints
  outcome : PassResult
deriving Repr, DecidableEq

/-- Result of the pass loop of one clip: the final `current_source`, the
records of the attempted passes, the worker state, and the exception
escaping the loop if any. -/
structure ActResult where
  src : FPath
  recs : List PassRec
  st : PState
  exn : Option String
deriving Repr, DecidableEq

/-- The pass loop of one clip (main.py lines 213-267): for each action in
the (already sorted) list, check the stop flag, load the mask side file,
resolve the character image (`custom_<name>.png` preferred, `<name>.png`
fallback, `continue` when neither exists), then run the generation attempt;
on success `current_source` becomes `temp_out`, otherwise the remaining
passes are abandoned. -/
def runActions (env : Env) (vid cid : String) :
    List ClipAction → FPath → PState → ActResult
  | [], src, s => ⟨src, [], s, none⟩
  | a :: rest, src, s =>
    let (stp, s) := checkStop env s
    if stp then ⟨src, [], s, none⟩
    else
      match env.maskFile cid a.pass_num with
      | some (Except.error e) =>
        ⟨src, [⟨a.pass_num, src, none, PassResult.maskError e⟩], s, some e⟩
      | mres =>
        let maskPts : Option MaskPoints :=
          match mres with
          | some (Except.ok m) => some m
          | _ => none
        if env.charExists ("custom_" ++ a.character ++ ".png")
            || env.charExists (a.character ++ ".png") then
          match env.passOutcome cid a.pass_num with
          | PassOutcome.genExn e =>
            ⟨src, [⟨a.pass_num, src, maskPts, PassResult.genExn e⟩], s, none⟩
          | PassOutcome.moveFail =>
            ⟨src, [⟨a.pass_num, src, maskPts, PassResult.moveFail⟩], s, none⟩
          | PassOutcome.success =>
            let tOut := tempOutPath vid cid a.pass_num
            let s := { s with created := tOut :: s.created }
            let r := runActions env vid cid rest tOut s
            ⟨r.src, ⟨a.pass_num, src, maskPts, PassResult.ok tOut⟩ :: r.recs, r.st, r.exn⟩
        else
          let r := runActions env vid cid rest src s
          ⟨r.src, ⟨a.pass_num, src, maskPts, PassResult.noCharImage⟩ :: r.recs, r.st, r.exn⟩

/-- Result of processing one clip. -/
structure ClipResult where
  recs : List PassRec
  st : PState
  exn : Option String
deriving Repr, DecidableEq

/-- The end-of-clip commit block (main.py lines 269-276): after the pass
loop, copy the final `current_source` to `clip_id.mp4` and set
`last_completed` exactly when it exists and differs from the original
source; an exception escaping the pass loop skips this block entirely. -/
def commitStep (env : Env) (vid : String) (clip : ClipInfo) (orig : FPath)
    (r : ActResult) : ClipResult :=
  match r.exn with
  | some e => ⟨r.recs, r.st, some e⟩
  | none =>
    if fileExists env r.st r.src && !(r.src == orig) then
      ⟨r.recs,
       { r.st with committed := clip.clip_id :: r.st.committed,
                   created := (["outputs", vid, clip.clip_id ++ ".mp4"]) :: r.st.created,
                   lastCompleted := some clip.clip_id },
       none⟩
    else ⟨r.recs, r.st, none⟩

/-- Processing of one clip found in the profile (main.py lines 189-276):
resolve the original source (skip the clip if missing), sort the actions by
pass number (Python's `sorted` is a stable sort, embedded as the stable
`insertionSort`), run the pass loop, then run the commit block. -/
def runClip (env : Env) (vid : String) (clip : ClipInfo) (s : PState) :
    ClipResult :=
  let orig := originalSourcePath vid clip
  if fileExists env s orig then
    let acts := clip.actions.insertionSort (fun a b => a.pass_num ≤ b.pass_num)
    commitStep env vid clip orig (runActions env vid clip.clip_id acts orig s)
  else ⟨[], s, none⟩

/-- Python's `{c["clip_id"]: c for c in job_data["clips"]}` followed by
`.get(clip_id)`: the last profile entry with the given id wins. -/
def clipsMapGet (clips : List ClipInfo) (cid : String) : Option ClipInfo :=
  clips.reverse.find? (fun c => c.clip_id == cid)

/-- Result of the clip loop of one queued unit. -/
structure ClipsResult where
  logs : List (String × List PassRec)
  st : PState
  exn : Option String
deriving Repr, DecidableEq

/-- The clip loop of one queued unit (main.py lines 174-276): check the stop
flag before each clip, skip ids missing from the profile, and run each found
clip; an exception escaping a clip's processing aborts the loop. -/
def runClips (env : Env) (vid : String) (clips : List ClipInfo) :
    List String → PState → ClipsResult
  | [], s => ⟨[], s, none⟩
  | cid :: rest, s =>
    let (stp, s) := checkStop env s
    if stp then ⟨[], s, none⟩
    else
      match clipsMapGet clips cid with
      | none => runClips env vid clips rest s
      | some clip =>
        let r := runClip env vid clip s
        match r.exn with
        | some e => ⟨[(cid, r.recs)], r.st, some e⟩
        | none =>
          let rr := runClips env vid clips rest r.st
          ⟨(cid, r.recs) :: rr.logs, rr.st, rr.exn⟩

/-- Result of one `run_queue_processor` invocation. -/
structure UnitResult where
  logs : List (String × List PassRec)
  state : PState
  /-- the exception caught by the unit-level handler ("[QUEUE ERROR]"),
  if one escaped the clip loop; the worker itself survives either way. -/
  queueError : Option String
  /-- whether the auto-stitch step ran after the loop. -/
  stitchRan : Bool
deriving Repr, DecidableEq

/-- One `run_queue_processor(video_id, clip_ids)` run (main.py lines
150-291).  `_flag0` is the stop flag's value when the unit starts; line 162
(`stop_event.clear()`) discards it, so the run only ever observes stop
requests arriving after the unit has begun.  `jobLoad` is the attempt to
load the job profile (an `Except.error` models `get_job_profile_path` /
`json.load` raising, which the unit-level handler catches).  After an
uncancelled loop the auto-stitch step runs. -/
def runQueueProcessor (env : Env) (_flag0 : Bool)
    (jobLoad : Except String (List ClipInfo)) (vid : String)
    (cids : List String) (lastCompleted0 : Option String) : UnitResult :=
  let s0 : PState := { t := 0, flag := false, lastCompleted := lastCompleted0,
                       committed := [], created := [] }
  match jobLoad with
  | Except.error e => ⟨[], s0, some e, false⟩
  | Except.ok clips =>
    let r := runClips env vid clips cids s0
    match r.exn with
    | some e => ⟨r.logs, r.st, some e, false⟩
    | none =>
      let (stp, s') := checkStop env r.st
      ⟨r.logs, s', none, !stp⟩

/-! ## Concatenation stage (`main.stitch_video`)

The filesystem is embedded as a content map `FPath → Option String`
(`none` = missing).  The encode and concat tools are opaque deterministic
collaborators supplied by a `StitchEnv`; the concat tool may write (partial)
output at its target path even when it exits non-zero, which is exactly what
`ffmpeg -y <final>` can do. -/

/-- Filesystem contents. -/
abbrev FS := FPath → Option String

/-- Point update of a filesystem. -/
def fsUpdate (fs : FS) (p : FPath) (v : Option String) : FS :=
  fun q => if q = p then v else fs q

/-- The fields of a profile clip that `stitch_video` reads. -/
structure SClip where
  clip_id : String
  path : FPath
deriving Repr, DecidableEq

/-- The fields of the job profile that `stitch_video` reads. -/
structure SJob where
  fps : Int
  clips : List SClip
deriving Repr, DecidableEq

/-- External tools used by `stitch_video`. -/
structure StitchEnv where
  /-- whether `OUTPUTS_DIR / video_id` exists. -/
  outDirExists : Bool
  /-- the re-encode invocation (source content, target fps) → content of the
  produced substitute, or `none` when the tool produces no file (its result
  code is never checked). -/
  encodeTool : String → Int → Option String
  /-- the concat invocation (contents of the listed files, in order) →
  (returncode, content written at the output path if any). -/
  concatTool : List String → Int × Option String

/-- The committed per-clip artifact path `OUTPUTS_DIR/<vid>/<clip_id>.mp4`. -/
def clipFilePath (vid cid : String) : FPath :=
  ["outputs", vid, cid ++ ".mp4"]

/-- The final artifact path `OUTPUTS_DIR/<vid>/<vid>_final.mp4`. -/
def finalPath (vid : String) : FPath :=
  ["outputs", vid, vid ++ "_final.mp4"]

/-- The playlist path `OUTPUTS_DIR/<vid>/list.txt`. -/
def listPath (vid : String) : FPath :=
  ["outputs", vid, "list.txt"]

/-- The fallback source for a clip with no committed artifact
(main.py lines 491-501), same cleanup as the worker's. -/
def stitchSourcePath (vid : String) (c : SClip) : FPath :=
  ["inputs", "videos", vid] ++ cleanRelPath c.path

/-- Accumulator of the per-clip loop of `stitch_video`: the filesystem, the
playlist entries written so far (path and content of each listed file), and
the clips for which the encode tool has been invoked. -/
structure StitchAcc where
  fs : FS
  entries : List (FPath × String)
  encLog : List String

/-- One iteration of the per-clip loop of `stitch_video` (main.py lines
482-528): use the committed artifact when it exists; otherwise, when the
original source exists, invoke the encode tool to produce a substitute at
the same name (unchecked result); a clip whose source is also missing is
skipped; finally append the clip file to the playlist when it exists. -/
def stitchClipStep (env : StitchEnv) (vid : String) (fps : Int)
    (acc : StitchAcc) (c : SClip) : StitchAcc :=
  match acc.fs (clipFilePath vid c.clip_id) with
  | some content =>
    { acc with entries := acc.entries ++ [(clipFilePath vid c.clip_id, content)] }
  | none =>
    match acc.fs (stitchSourcePath vid c) with
    | some srcContent =>
      match env.encodeTool srcContent fps with
      | some w =>
        { fs := fsUpdate acc.fs (clipFilePath vid c.clip_id) (some w),
          entries := acc.entries ++ [(clipFilePath vid c.clip_id, w)],
          encLog := acc.encLog ++ [c.clip_id] }
      | none =>
        { fs := fsUpdate acc.fs (clipFilePath vid c.clip_id) none,
          entries := acc.entries,
          encLog := acc.encLog ++ [c.clip_id] }
    | none => acc

/-- Rendering of `list.txt` (one `file '<path>'` line per entry). -/
def renderListFile (ps : List FPath) : String :=
  String.join (ps.map (fun p => "file '" ++ String.intercalate "/" p ++ "'\n"))

/-- `stitch_video(video_id)` (main.py lines 464-554): build the playlist
(with re-encoded substitutes), write `list.txt`, run the concat tool
directly onto the final artifact path, and raise a single terminal error
when the tool exits non-zero (its partial output, if any, stays on disk).
Returns the final filesystem, the encode-tool invocation log, and the
endpoint result. -/
def stitch_video (env : StitchEnv) (fs0 : FS) (vid : String) (job : SJob) :
    FS × List String × Except String String :=
  if env.outDirExists then
    let acc := job.clips.foldl (stitchClipStep env vid job.fps) ⟨fs0, [], []⟩
    let fs1 := fsUpdate acc.fs (listPath vid)
      (some (renderListFile (acc.entries.map Prod.fst)))
    let res := env.concatTool (acc.entries.map Prod.snd)
    let fs2 := match res.2 with
      | some w => fsUpdate fs1 (finalPath vid) (some w)
      | none => fs1
    if res.1 ≠ 0 then (fs2, acc.encLog, Except.error "Stitching process failed")
    else (fs2, acc.encLog, Except.ok ("/outputs/" ++ vid ++ "/" ++ vid ++ "_final.mp4"))
  else (fs0, [], Except.error "No outputs found")

/-- The result a pass's generation attempt records. -/
def passResultOf (vid cid : String) (p : Int) : PassOutcome → PassResult
  | PassOutcome.genExn e => PassResult.genExn e
  | PassOutcome.moveFail => PassResult.moveFail
  | PassOutcome.success => PassResult.ok (tempOutPath vid cid p)

instance : IsTotal ClipAction (fun a b => a.pass_num ≤ b.pass_num) :=
  ⟨fun a b => Int.le_total a.pass_num b.pass_num⟩

instance : IsTrans ClipAction (fun a b => a.pass_num ≤ b.pass_num) :=
  ⟨fun _ _ _ h₁ h₂ => le_trans h₁ h₂⟩

/-! ## Concrete fixtures used by witnesses and counterexamples -/

/-- No matching output anywhere and no node "114" at all. -/
def outputsNoMatch : List (String × NodeOutput) :=
  [("50", ⟨none, some [⟨"anim.gif"⟩]⟩)]

/-- A matching video entry on a non-default node. -/
def outputsMatch : List (String × NodeOutput) :=
  [("50", ⟨none, some [⟨"anim.gif"⟩]⟩),
   ("114", ⟨some [⟨"DF_V1_c3_pass1_00002.mp4"⟩], none⟩)]

/-- A template with recognizable contents. -/
def tmplW : Workflow := ⟨0, 0, "ps", "cs", "ns", "v", "i", "fp", 7⟩

/-- Whether loading the mask side file for (clip, pass) raises. -/
def maskRaises (env : Env) (cid : String) (p : Int) : Bool :=
  match env.maskFile cid p with
  | some (Except.error _) => true
  | _ => false

/-- The mask point-set `run_queue_processor` ends up holding after the
mask-load step (assuming it does not raise). -/
def maskLoaded : Option (Except String MaskPoints) → Option MaskPoints
  | some (Except.ok m) => some m
  | _ => none

/-- Chaining relation between consecutive pass records: the next pass's
source is the previous pass's retrieved artifact when that pass succeeded,
and the previous pass's own source otherwise. -/
def chainOk (r r' : PassRec) : Prop :=
  r'.src = match r.outcome with
    | PassResult.ok a => a
    | _ => r.src

/-- A two-pass clip whose first pass names a character with no image. -/
def clipC2 : ClipInfo :=
  ⟨"c7", ["TrimmedClips", "c7.mp4"], "BothChar", [⟨1, "ghost"⟩, ⟨2, "char1"⟩]⟩

/-- A two-pass clip listed out of pass order. -/
def clipC7 : ClipInfo :=
  ⟨"c8", ["TrimmedClips", "c8.mp4"], "BothChar", [⟨2, "char1"⟩, ⟨1, "char1"⟩]⟩

/-- Single-pass clips for unit-level scenarios. -/
def clipA : ClipInfo := ⟨"A", ["TrimmedClips", "A.mp4"], "Char1", [⟨1, "char1"⟩]⟩

def clipB : ClipInfo := ⟨"B", ["TrimmedClips", "B.mp4"], "Char1", [⟨1, "char1"⟩]⟩

/-- A benign environment: no stop requests, no mask files, only
`char1.png` available, all generation attempts succeed. -/
def envOk : Env :=
  { stopReads := fun _ => false
    maskFile := fun _ _ => none
    charExists := fun n => n == "char1.png"
    exists0 := fun p =>
      p == ["inputs", "videos", "V1", "TrimmedClips", "c7.mp4"]
      || p == ["inputs", "videos", "V1", "TrimmedClips", "c8.mp4"]
      || p == ["inputs", "videos", "V1", "TrimmedClips", "A.mp4"]
      || p == ["inputs", "videos", "V1", "TrimmedClips", "B.mp4"]
    passOutcome := fun _ _ => PassOutcome.success }

/-- Like `envOk` but every generation attempt raises. -/
def envFail : Env :=
  { envOk with passOutcome := fun _ _ => PassOutcome.genExn "upload failed" }

/-- Like `envOk` but clip "A"'s pass-1 mask file is malformed JSON. -/
def envBadMask : Env :=
  { envOk with
    maskFile := fun cid p =>
      if cid == "A" && p == 1 then some (Except.error "bad json") else none }

/-- Like `envOk` but a stop request has arrived before every read. -/
def envStop : Env :=
  { envOk with stopReads := fun _ => true }

/-- A stitch environment whose concat tool writes partial output and exits
non-zero, and whose encode tool produces nothing. -/
def stEnvBad : StitchEnv :=
  { outDirExists := true
    encodeTool := fun _ _ => none
    concatTool := fun _ => (1, some "PARTIAL") }

/-- A deterministic, well-behaved stitch environment. -/
def stEnvOk : StitchEnv :=
  { outDirExists := true
    encodeTool := fun srcContent fps => some ("enc(" ++ srcContent ++ "@" ++ toString fps ++ ")")
    concatTool := fun entries => (0, some (String.intercalate "|" entries)) }

/-- A pre-stitch filesystem holding a previously valid final artifact. -/
def fsC4 : FS := fun p => if p = finalPath "V1" then some "GOOD" else none

/-- A job with no clips. -/
def jobEmpty : SJob := ⟨24, []⟩

/-- A two-clip job: `A` has a committed artifact, `B` only an input. -/
def jobC9 : SJob := ⟨24, [⟨"A", ["TrimmedClips", "A.mp4"]⟩, ⟨"B", ["TrimmedClips", "B.mp4"]⟩]⟩

/-- The filesystem before the first stitch of `jobC9`. -/
def fsC9 : FS := fun p =>
  if p = clipFilePath "V1" "A" then some "artifactA"
  else if p = stitchSourcePath "V1" ⟨"B", ["TrimmedClips", "B.mp4"]⟩ then some "rawB"
  else none

/-- The content that ends up at a clip's artifact path after its stitch-loop
iteration, as a function of the filesystem at that iteration: the committed
artifact when present, otherwise the encode tool's output on the original
source when that exists, otherwise nothing. -/
def effStore (env : StitchEnv) (vid : String) (fps : Int) (fs : FS)
    (c : SClip) : Option String :=
  match fs (clipFilePath vid c.clip_id) with
  | some v => some v
  | none =>
    match fs (stitchSourcePath vid c) with
    | some srcContent => env.encodeTool srcContent fps
    | none => none

/-- The initial worker state of a fresh unit. -/
def pst0 : PState := ⟨0, false, none, [], []⟩

end DFS

namespace DFS

/-! ## Helper lemmas: retrieval scan order -/

/-- `nodeMatch` is the `Option.or` of the two per-category scans. -/
theorem nodeMatch_eq_or (pfx : String) (n : NodeOutput) :
    nodeMatch pfx n
      = (n.videos.bind (findPfxMatch pfx)).or (n.gifs.bind (findPfxMatch pfx)) := by
  cases h : n.videos.bind (findPfxMatch pfx) <;> simp [nodeMatch, h]

/-- Scanning one category's filename list is the category's item scan. -/
theorem find?_filenames (pfx : String) (o : Option (List OutputItem)) :
    ((o.getD []).map OutputItem.filename).find? (fun f => pyStartsWith f pfx)
      = o.bind (findPfxMatch pfx) := by
  cases o with
  | none => simp
  | some items => simp [findPfxMatch, List.find?_map, Function.comp_def]

/-- The nested per-node/per-category retrieval loop visits filenames exactly
in `scanOrder`, so its result is the first match in that flattened order. -/
theorem find?_scanOrder (outputs : List (String × NodeOutput)) (pfx : String) :
    (scanOrder outputs).find? (fun f => pyStartsWith f pfx)
      = outputs.findSome? (fun e => nodeMatch pfx e.2) := by
  induction outputs with
  | nil => simp [scanOrder]
  | cons e t ih =>
    simp only [scanOrder, List.flatMap_cons, List.findSome?_cons] at *
    rw [List.find?_append, List.find?_append, find?_filenames, find?_filenames,
      ih, nodeMatch_eq_or]
    cases h : (e.2.videos.bind (findPfxMatch pfx)).or (e.2.gifs.bind (findPfxMatch pfx)) <;>
      simp [h]


/-! ## Claim C1 -/

/-- C1 counterexample: with a history whose only output entry matches
nothing and with no node "114", the retrieval step of `generate_clip`
returns successfully with Python `None` — it does not fail with a
`RetrievalError` (no exception at all is raised on this path). -/
theorem claim_C1_counterexample :
    retrieveOutput outputsNoMatch "DF_V1_c3_pass1" = Except.ok none := by
  decide

/-- C1 (amended): when no entry in any output category matches the
requested output-name hint and node "114" carries no `videos` listing, the
retrieval step returns `None` successfully (it does not raise); when some
entry matches, the first match in scan order is returned as the
service-reported filename. -/
theorem claim_C1 (outputs : List (String × NodeOutput)) (pfx : String) :
    ((scanOrder outputs).find? (fun f => pyStartsWith f pfx) = none →
      slot114videos outputs = none →
      retrieveOutput outputs pfx = Except.ok none)
    ∧ (∀ f, (scanOrder outputs).find? (fun g => pyStartsWith g pfx) = some f →
      retrieveOutput outputs pfx = Except.ok (some f)) := by
  have hk := find?_scanOrder outputs pfx
  constructor
  · intro h1 h2
    rw [hk] at h1
    unfold retrieveOutput
    rw [h1]
    cases hf : outputs.find? (fun e => e.1 == "114") with
    | none => rfl
    | some e =>
      unfold slot114videos at h2
      rw [hf] at h2
      simp only [Option.some_bind] at h2
      simp [h2]
  · intro f hf
    rw [hk] at hf
    unfold retrieveOutput
    rw [hf]

/-- C1 witness: both branches of `claim_C1` at concrete histories. -/
theorem claim_C1_witness :
    retrieveOutput outputsNoMatch "DF" = Except.ok none
    ∧ retrieveOutput outputsMatch "DF_V1_c3_pass1"
        = Except.ok (some "DF_V1_c3_pass1_00002.mp4") :=
  ⟨(claim_C1 outputsNoMatch "DF").1 (by decide) (by decide),
   (claim_C1 outputsMatch "DF_V1_c3_pass1").2 _ (by decide)⟩

/-! ## Claim C10 -/

/-- C10: a caller-supplied seed of `0` is falsy at `if seed:`, so the
workflow is submitted with the time-derived seed
`int(time.time()*1000) % 10^10` (identical to not supplying a seed), while
a nonzero supplied seed is forwarded verbatim. -/
theorem claim_C10 (tmpl : Workflow) (vn im : String) (vId : Option String)
    (out : String) (mp : Option MaskPoints) (nowMs : Nat) (sd : Int)
    (hsd : sd ≠ 0) :
    (buildWorkflow tmpl vn im vId out mp (some 0) nowMs).seed
        = (nowMs : Int) % 10000000000
    ∧ (buildWorkflow tmpl vn im vId out mp (some 0) nowMs).seed
        = (buildWorkflow tmpl vn im vId out mp none nowMs).seed
    ∧ (buildWorkflow tmpl vn im vId out mp (some sd) nowMs).seed = sd := by
  refine ⟨?_, ?_, ?_⟩ <;> simp [buildWorkflow, hsd]

/-- C10 witness: `claim_C10` at a concrete call. -/
theorem claim_C10_witness :
    (5 : Int) ≠ 0
    ∧ ((buildWorkflow tmplW "v.mp4" "c.png" (some "Video1") "DF_x" none
          (some 0) 1234567).seed = (1234567 : Int) % 10000000000
      ∧ (buildWorkflow tmplW "v.mp4" "c.png" (some "Video1") "DF_x" none
          (some 0) 1234567).seed
        = (buildWorkflow tmplW "v.mp4" "c.png" (some "Video1") "DF_x" none
            none 1234567).seed
      ∧ (buildWorkflow tmplW "v.mp4" "c.png" (some "Video1") "DF_x" none
          (some 5) 1234567).seed = 5) :=
  ⟨by decide,
   claim_C10 tmplW "v.mp4" "c.png" (some "Video1") "DF_x" none 1234567 5 (by decide)⟩

/-! ## Worker lemmas -/

/-- Unfolding of the pass loop at a stop checkpoint that fires. -/
theorem runActions_stop (env : Env) (vid cid : String) (a : ClipAction)
    (rest : List ClipAction) (src : FPath) (s : PState)
    (h : (s.flag || env.stopReads s.t) = true) :
    runActions env vid cid (a :: rest) src s
      = ⟨src, [], (checkStop env s).2, none⟩ := by
  simp [runActions, checkStop, h]

/-- Unfolding of the pass loop when the mask side file fails to parse. -/
theorem runActions_maskError (env : Env) (vid cid : String) (a : ClipAction)
    (rest : List ClipAction) (src : FPath) (s : PState) (e : String)
    (hstp : (s.flag || env.stopReads s.t) = false)
    (hm : env.maskFile cid a.pass_num = some (Except.error e)) :
    runActions env vid cid (a :: rest) src s
      = ⟨src, [⟨a.pass_num, src, none, PassResult.maskError e⟩],
          (checkStop env s).2, some e⟩ := by
  simp [runActions, checkStop, hstp, hm]

/-- Unfolding of the pass loop when the pass's character image is missing:
the pass is skipped by `continue` and the loop moves on unchanged. -/
theorem runActions_skip (env : Env) (vid cid : String) (a : ClipAction)
    (rest : List ClipAction) (src : FPath) (s : PState)
    (hstp : (s.flag || env.stopReads s.t) = false)
    (hm : maskRaises env cid a.pass_num = false)
    (hc : (env.charExists ("custom_" ++ a.character ++ ".png")
        || env.charExists (a.character ++ ".png")) = false) :
    runActions env vid cid (a :: rest) src s
      = (let r := runActions env vid cid rest src (checkStop env s).2
         ⟨r.src, ⟨a.pass_num, src, maskLoaded (env.maskFile cid a.pass_num),
            PassResult.noCharImage⟩ :: r.recs, r.st, r.exn⟩) := by
  cases hmf : env.maskFile cid a.pass_num with
  | none => simp [runActions, checkStop, hstp, hmf, hc, maskLoaded]
  | some exm =>
    cases exm with
    | error e => rw [maskRaises, hmf] at hm; exact absurd hm (by simp)
    | ok m => simp [runActions, checkStop, hstp, hmf, hc, maskLoaded]

/-- Unfolding of the pass loop when the character image resolves and the
generation attempt runs: its outcome decides whether the loop continues. -/
theorem runActions_attempt (env : Env) (vid cid : String) (a : ClipAction)
    (rest : List ClipAction) (src : FPath) (s : PState)
    (hstp : (s.flag || env.stopReads s.t) = false)
    (hm : maskRaises env cid a.pass_num = false)
    (hc : (env.charExists ("custom_" ++ a.character ++ ".png")
        || env.charExists (a.character ++ ".png")) = true) :
    runActions env vid cid (a :: rest) src s
      = match env.passOutcome cid a.pass_num with
        | PassOutcome.genExn e =>
          ⟨src, [⟨a.pass_num, src, maskLoaded (env.maskFile cid a.pass_num),
            PassResult.genExn e⟩], (checkStop env s).2, none⟩
        | PassOutcome.moveFail =>
          ⟨src, [⟨a.pass_num, src, maskLoaded (env.maskFile cid a.pass_num),
            PassResult.moveFail⟩], (checkStop env s).2, none⟩
        | PassOutcome.success =>
          let tOut := tempOutPath vid cid a.pass_num
          let s' := { (checkStop env s).2 with
                      created := tOut :: (checkStop env s).2.created }
          let r := runActions env vid cid rest tOut s'
          ⟨r.src, ⟨a.pass_num, src, maskLoaded (env.maskFile cid a.pass_num),
            PassResult.ok tOut⟩ :: r.recs, r.st, r.exn⟩ := by
  cases hmf : env.maskFile cid a.pass_num with
  | none =>
    cases ho : env.passOutcome cid a.pass_num <;>
      simp [runActions, checkStop, hstp, hmf, hc, ho, maskLoaded]
  | some exm =>
    cases exm with
    | error e => rw [maskRaises, hmf] at hm; exact absurd hm (by simp)
    | ok m =>
      cases ho : env.passOutcome cid a.pass_num <;>
        simp [runActions, checkStop, hstp, hmf, hc, ho, maskLoaded]

/-- Facts about the pass loop, proved in one induction: it never touches the
committed list or `last_completed`; the final source changes only via a
successful pass; with parseable mask files no exception escapes; the
attempted pass indices are a prefix of the action list's; and sources chain
from each pass to the next. -/
theorem runActions_facts (env : Env) (vid cid : String) :
    ∀ (acts : List ClipAction) (src : FPath) (s : PState),
      (runActions env vid cid acts src s).st.committed = s.committed
      ∧ (runActions env vid cid acts src s).st.lastCompleted = s.lastCompleted
      ∧ ((runActions env vid cid acts src s).src ≠ src →
          ∃ a ∈ acts, env.passOutcome cid a.pass_num = PassOutcome.success)
      ∧ ((∀ a ∈ acts, maskRaises env cid a.pass_num = false) →
          (runActions env vid cid acts src s).exn = none)
      ∧ ((runActions env vid cid acts src s).recs.map PassRec.passNum
          <+: acts.map ClipAction.pass_num)
      ∧ (runActions env vid cid acts src s).recs.Chain' chainOk
      ∧ (∀ r, (runActions env vid cid acts src s).recs.head? = some r →
          r.src = src)
  | [], src, s =>
    ⟨rfl, rfl, fun h => absurd rfl h, fun _ => rfl, List.nil_prefix,
     List.chain'_nil, fun r hr => by exact absurd hr (by simp [runActions])⟩
  | a :: rest, src, s => by
    cases hstp : s.flag || env.stopReads s.t with
    | true =>
      rw [runActions_stop env vid cid a rest src s hstp]
      exact ⟨rfl, rfl, fun h => absurd rfl h, fun _ => rfl, List.nil_prefix,
        List.chain'_nil, fun r hr => by exact absurd hr (by simp)⟩
    | false =>
      by_cases hraise : maskRaises env cid a.pass_num = true
      · obtain ⟨e, hm⟩ : ∃ e, env.maskFile cid a.pass_num = some (Except.error e) := by
          unfold maskRaises at hraise
          cases hmf : env.maskFile cid a.pass_num with
          | none => rw [hmf] at hraise; exact absurd hraise (by simp)
          | some exm =>
            cases exm with
            | error e => exact ⟨e, rfl⟩
            | ok m => rw [hmf] at hraise; exact absurd hraise (by simp)
        rw [runActions_maskError env vid cid a rest src s e hstp hm]
        refine ⟨rfl, rfl, fun h => absurd rfl h, ?_, ?_, ?_, ?_⟩
        · intro h
          have hh := h a (List.mem_cons_self a rest)
          rw [maskRaises, hm] at hh
          exact absurd hh (by simp)
        · exact ⟨List.map ClipAction.pass_num rest, rfl⟩
        · exact List.chain'_singleton _
        · intro r hr
          cases hr
          rfl
      · have hm : maskRaises env cid a.pass_num = false := by
          cases h : maskRaises env cid a.pass_num
          · rfl
          · exact absurd h hraise
        cases hc : env.charExists ("custom_" ++ a.character ++ ".png")
            || env.charExists (a.character ++ ".png") with
        | false =>
          rw [runActions_skip env vid cid a rest src s hstp hm hc]
          obtain ⟨h1, h2, h3, h4, h5, h6, h7⟩ :=
            runActions_facts env vid cid rest src (checkStop env s).2
          refine ⟨h1, h2, ?_, ?_, ?_, ?_, ?_⟩
          · intro h
            obtain ⟨a', ha', hs'⟩ := h3 h
            exact ⟨a', List.mem_cons_of_mem _ ha', hs'⟩
          · intro h
            exact h4 (fun a' ha' => h a' (List.mem_cons_of_mem _ ha'))
          · exact List.cons_prefix_cons.mpr ⟨rfl, h5⟩
          · refine List.chain'_cons'.mpr ⟨?_, h6⟩
            intro y hy
            show y.src = _
            simpa [chainOk] using h7 y hy
          · intro r hr
            cases hr
            rfl
        | true =>
          rw [runActions_attempt env vid cid a rest src s hstp hm hc]
          cases ho : env.passOutcome cid a.pass_num with
          | genExn e =>
            refine ⟨rfl, rfl, fun h => absurd rfl h, fun _ => rfl, ?_, ?_, ?_⟩
            · exact ⟨List.map ClipAction.pass_num rest, rfl⟩
            · exact List.chain'_singleton _
            · intro r hr
              cases hr
              rfl
          | moveFail =>
            refine ⟨rfl, rfl, fun h => absurd rfl h, fun _ => rfl, ?_, ?_, ?_⟩
            · exact ⟨List.map ClipAction.pass_num rest, rfl⟩
            · exact List.chain'_singleton _
            · intro r hr
              cases hr
              rfl
          | success =>
            obtain ⟨h1, h2, h3, h4, h5, h6, h7⟩ :=
              runActions_facts env vid cid rest (tempOutPath vid cid a.pass_num)
                { (checkStop env s).2 with
                  created := tempOutPath vid cid a.pass_num
                    :: (checkStop env s).2.created }
            refine ⟨h1, h2, fun _ => ⟨a, List.mem_cons_self a rest, ho⟩,
              ?_, ?_, ?_, ?_⟩
            · intro h
              exact h4 (fun a' ha' => h a' (List.mem_cons_of_mem _ ha'))
            · exact List.cons_prefix_cons.mpr ⟨rfl, h5⟩
            · refine List.chain'_cons'.mpr ⟨?_, h6⟩
              intro y hy
              show y.src = _
              simpa [chainOk] using h7 y hy
            · intro r hr
              cases hr
              rfl

/-- The commit block leaves everything unchanged when the final source still
equals the original input. -/
theorem commitStep_src_eq (env : Env) (vid : String) (clip : ClipInfo)
    (orig : FPath) (r : ActResult) (h : r.src = orig) :
    commitStep env vid clip orig r = ⟨r.recs, r.st, r.exn⟩ := by
  unfold commitStep
  cases hexn : r.exn with
  | some e => rfl
  | none => simp [h, hexn]

/-- The commit block either leaves the committed list and `last_completed`
unchanged, or commits this clip — and then the final source differs from the
original input and no exception escaped the pass loop. -/
theorem commitStep_cases (env : Env) (vid : String) (clip : ClipInfo)
    (orig : FPath) (r : ActResult) :
    ((commitStep env vid clip orig r).st.committed = r.st.committed
      ∧ (commitStep env vid clip orig r).st.lastCompleted = r.st.lastCompleted)
    ∨ ((commitStep env vid clip orig r).st.committed = clip.clip_id :: r.st.committed
      ∧ (commitStep env vid clip orig r).st.lastCompleted = some clip.clip_id
      ∧ r.src ≠ orig ∧ r.exn = none) := by
  unfold commitStep
  cases hexn : r.exn with
  | some e => exact Or.inl ⟨rfl, rfl⟩
  | none =>
    by_cases hcond : (fileExists env r.st r.src && !(r.src == orig)) = true
    · rw [if_pos hcond]
      refine Or.inr ⟨rfl, rfl, ?_, rfl⟩
      intro heq
      rw [heq] at hcond
      simp at hcond
    · rw [if_neg hcond]
      exact Or.inl ⟨rfl, rfl⟩

/-- The commit block never changes the pass records or the exception. -/
theorem commitStep_recs_exn (env : Env) (vid : String) (clip : ClipInfo)
    (orig : FPath) (r : ActResult) :
    (commitStep env vid clip orig r).recs = r.recs
    ∧ (commitStep env vid clip orig r).exn = r.exn := by
  unfold commitStep
  cases hexn : r.exn with
  | some e => exact ⟨rfl, rfl⟩
  | none =>
    by_cases hcond : (fileExists env r.st r.src && !(r.src == orig)) = true
    · rw [if_pos hcond]; exact ⟨rfl, rfl⟩
    · rw [if_neg hcond]; exact ⟨rfl, rfl⟩

/-- Unfolding of `runClip` when the clip's original source is missing. -/
theorem runClip_src_missing (env : Env) (vid : String) (clip : ClipInfo)
    (s : PState) (h : fileExists env s (originalSourcePath vid clip) = false) :
    runClip env vid clip s = ⟨[], s, none⟩ := by
  simp [runClip, h]

/-- Unfolding of `runClip` when the clip's original source exists. -/
theorem runClip_run (env : Env) (vid : String) (clip : ClipInfo) (s : PState)
    (h : fileExists env s (originalSourcePath vid clip) = true) :
    runClip env vid clip s
      = commitStep env vid clip (originalSourcePath vid clip)
          (runActions env vid clip.clip_id
            (clip.actions.insertionSort (fun a b => a.pass_num ≤ b.pass_num))
            (originalSourcePath vid clip) s) := by
  simp [runClip, h]

/-- Membership transfers between a clip's action list and its sorted form. -/
theorem mem_insertionSort_actions (clip : ClipInfo) (a : ClipAction) :
    a ∈ clip.actions.insertionSort (fun a b => a.pass_num ≤ b.pass_num)
      ↔ a ∈ clip.actions :=
  (List.perm_insertionSort _ _).mem_iff

/-! ## Claim C2 -/

/-- C2 counterexample: in clip `c7`, pass 1's character ("ghost") has
neither a `custom_ghost.png` nor a `ghost.png` image, yet pass 2 still
executes (and succeeds), and the clip is committed with `last_completed`
set — the remaining passes are not skipped and the clip is not left
aborted. -/
theorem claim_C2_counterexample :
    (runClip envOk "V1" clipC2 pst0).recs.map PassRec.outcome
      = [PassResult.noCharImage, PassResult.ok (tempOutPath "V1" "c7" 2)]
    ∧ (runClip envOk "V1" clipC2 pst0).st.committed = ["c7"]
    ∧ (runClip envOk "V1" clipC2 pst0).st.lastCompleted = some "c7" := by
  decide

/-- C2 (amended): when a pass's character reference image resolves to
neither `custom_<name>.png` nor `<name>.png`, only that pass is skipped
(recorded as `noCharImage`, with no generation attempt); the remaining
passes of the clip execute exactly as if the loop had continued — same
records, same final source, same escaping exception — so the clip can still
be committed by a later successful pass. -/
theorem claim_C2 (env : Env) (vid cid : String) (a : ClipAction)
    (rest : List ClipAction) (src : FPath) (s : PState)
    (hstp : (s.flag || env.stopReads s.t) = false)
    (hm : maskRaises env cid a.pass_num = false)
    (hc1 : env.charExists ("custom_" ++ a.character ++ ".png") = false)
    (hc2 : env.charExists (a.character ++ ".png") = false) :
    (runActions env vid cid (a :: rest) src s).recs
      = ⟨a.pass_num, src, maskLoaded (env.maskFile cid a.pass_num),
          PassResult.noCharImage⟩
        :: (runActions env vid cid rest src (checkStop env s).2).recs
    ∧ (runActions env vid cid (a :: rest) src s).src
      = (runActions env vid cid rest src (checkStop env s).2).src
    ∧ (runActions env vid cid (a :: rest) src s).exn
      = (runActions env vid cid rest src (checkStop env s).2).exn := by
  have hc : (env.charExists ("custom_" ++ a.character ++ ".png")
      || env.charExists (a.character ++ ".png")) = false := by
    rw [hc1, hc2]; rfl
  rw [runActions_skip env vid cid a rest src s hstp hm hc]
  exact ⟨rfl, rfl, rfl⟩

/-- C2 witness: `claim_C2` at clip `c7`'s first pass. -/
theorem claim_C2_witness :
    (runActions envOk "V1" "c7" [⟨1, "ghost"⟩, ⟨2, "char1"⟩]
        (originalSourcePath "V1" clipC2) pst0).recs
      = ⟨1, originalSourcePath "V1" clipC2,
          maskLoaded (envOk.maskFile "c7" 1), PassResult.noCharImage⟩
        :: (runActions envOk "V1" "c7" [⟨2, "char1"⟩]
            (originalSourcePath "V1" clipC2) (checkStop envOk pst0).2).recs
    ∧ (runActions envOk "V1" "c7" [⟨1, "ghost"⟩, ⟨2, "char1"⟩]
        (originalSourcePath "V1" clipC2) pst0).src
      = (runActions envOk "V1" "c7" [⟨2, "char1"⟩]
          (originalSourcePath "V1" clipC2) (checkStop envOk pst0).2).src
    ∧ (runActions envOk "V1" "c7" [⟨1, "ghost"⟩, ⟨2, "char1"⟩]
        (originalSourcePath "V1" clipC2) pst0).exn
      = (runActions envOk "V1" "c7" [⟨2, "char1"⟩]
          (originalSourcePath "V1" clipC2) (checkStop envOk pst0).2).exn :=
  claim_C2 envOk "V1" "c7" ⟨1, "ghost"⟩ [⟨2, "char1"⟩]
    (originalSourcePath "V1" clipC2) pst0 (by decide) (by decide)
    (by decide) (by decide)

/-! ## Claim C6 -/

/-- C6: a clip is committed (and `last_completed` updated) only when some
pass actually succeeded — equivalently, when the final current source
differs from the clip's original input; in particular a clip whose every
pass fails is never committed and never becomes `last_completed`. -/
theorem claim_C6 (env : Env) (vid : String) (clip : ClipInfo) (s : PState) :
    ((∀ a ∈ clip.actions,
        env.passOutcome clip.clip_id a.pass_num ≠ PassOutcome.success) →
      (runClip env vid clip s).st.committed = s.committed
      ∧ (runClip env vid clip s).st.lastCompleted = s.lastCompleted)
    ∧ ((runClip env vid clip s).st.committed ≠ s.committed →
      ∃ a ∈ clip.actions,
        env.passOutcome clip.clip_id a.pass_num = PassOutcome.success) := by
  cases hex : fileExists env s (originalSourcePath vid clip) with
  | false =>
    rw [runClip_src_missing env vid clip s hex]
    exact ⟨fun _ => ⟨rfl, rfl⟩, fun h => absurd rfl h⟩
  | true =>
    rw [runClip_run env vid clip s hex]
    obtain ⟨h1, h2, h3, h4, h5, h6, h7⟩ :=
      runActions_facts env vid clip.clip_id
        (clip.actions.insertionSort (fun a b => a.pass_num ≤ b.pass_num))
        (originalSourcePath vid clip) s
    constructor
    · intro hfail
      have hsrc : (runActions env vid clip.clip_id
          (clip.actions.insertionSort (fun a b => a.pass_num ≤ b.pass_num))
          (originalSourcePath vid clip) s).src = originalSourcePath vid clip := by
        by_contra hne
        obtain ⟨a, ha, hsa⟩ := h3 hne
        exact hfail a ((mem_insertionSort_actions clip a).mp ha) hsa
      rw [commitStep_src_eq env vid clip _ _ hsrc]
      exact ⟨h1, h2⟩
    · intro hch
      rcases commitStep_cases env vid clip (originalSourcePath vid clip)
          (runActions env vid clip.clip_id
            (clip.actions.insertionSort (fun a b => a.pass_num ≤ b.pass_num))
            (originalSourcePath vid clip) s) with ⟨hc, _⟩ | ⟨_, _, hne, _⟩
      · exact absurd (hc.trans h1) hch
      · obtain ⟨a, ha, hsa⟩ := h3 hne
        exact ⟨a, (mem_insertionSort_actions clip a).mp ha, hsa⟩

/-- C6 witness: with every generation attempt failing, clip `A` is neither
committed nor reported as `last_completed`. -/
theorem claim_C6_witness :
    ((∀ a ∈ clipA.actions,
        envFail.passOutcome clipA.clip_id a.pass_num ≠ PassOutcome.success)
      ∧ (runClip envFail "V1" clipA pst0).st.committed = pst0.committed
      ∧ (runClip envFail "V1" clipA pst0).st.lastCompleted = pst0.lastCompleted) :=
  ⟨by decide, (claim_C6 envFail "V1" clipA pst0).1 (by decide)⟩

/-! ## Claim C7 -/

/-- C7: within a clip the attempted passes run in strictly ascending
pass-index order (whatever the order of appearance in the action list, as
long as the indices are distinct); the source handed to each pass equals the
previous pass's retrieved artifact whenever that pass succeeded (and the
previous pass's own source otherwise); and the first pass's source is the
clip's declared original input under the project's input root. -/
theorem claim_C7 (env : Env) (vid : String) (clip : ClipInfo) (s : PState)
    (hnd : (clip.actions.map ClipAction.pass_num).Nodup)
    (hsrc : fileExists env s (originalSourcePath vid clip) = true) :
    ((runClip env vid clip s).recs.map PassRec.passNum).Sorted (· < ·)
    ∧ (runClip env vid clip s).recs.Chain' chainOk
    ∧ (∀ r, (runClip env vid clip s).recs.head? = some r →
        r.src = originalSourcePath vid clip) := by
  rw [runClip_run env vid clip s hsrc]
  obtain ⟨h1, h2, h3, h4, h5, h6, h7⟩ :=
    runActions_facts env vid clip.clip_id
      (clip.actions.insertionSort (fun a b => a.pass_num ≤ b.pass_num))
      (originalSourcePath vid clip) s
  obtain ⟨hrecs, -⟩ :=
    commitStep_recs_exn env vid clip (originalSourcePath vid clip)
      (runActions env vid clip.clip_id
        (clip.actions.insertionSort (fun a b => a.pass_num ≤ b.pass_num))
        (originalSourcePath vid clip) s)
  rw [hrecs]
  refine ⟨?_, h6, h7⟩
  have hsorted : ((clip.actions.insertionSort
      (fun a b => a.pass_num ≤ b.pass_num)).map ClipAction.pass_num).Sorted (· ≤ ·) :=
    List.Pairwise.map ClipAction.pass_num (fun _ _ h => h)
      (List.sorted_insertionSort _ clip.actions)
  have hndS : ((clip.actions.insertionSort
      (fun a b => a.pass_num ≤ b.pass_num)).map ClipAction.pass_num).Nodup :=
    ((List.perm_insertionSort _ clip.actions).map ClipAction.pass_num).nodup_iff.mpr hnd
  have hlt := List.Sorted.lt_of_le hsorted hndS
  exact List.Pairwise.sublist (List.IsPrefix.sublist h5) hlt

/-- C7 witness: clip `c8` lists pass 2 before pass 1, yet the attempted
passes are strictly ascending and chained from the original input. -/
theorem claim_C7_witness :
    ((runClip envOk "V1" clipC7 pst0).recs.map PassRec.passNum).Sorted (· < ·)
    ∧ (runClip envOk "V1" clipC7 pst0).recs.Chain' chainOk
    ∧ (∀ r, (runClip envOk "V1" clipC7 pst0).recs.head? = some r →
        r.src = originalSourcePath "V1" clipC7) :=
  claim_C7 envOk "V1" clipC7 pst0 (by decide) (by decide)

/-! ## Claim C3 -/

/-- C3 counterexample: a unit that was still queued when `stop()` set the
flag (`flag0 = true`) is nevertheless processed in full once it starts,
because `run_queue_processor` begins with `stop_event.clear()`: its clip is
generated, committed, and the auto-stitch step even runs — the queued unit
is not discarded. -/
theorem claim_C3_counterexample :
    (runQueueProcessor envOk true (Except.ok [clipA]) "V1" ["A"] none).state.committed
      = ["A"]
    ∧ (runQueueProcessor envOk true (Except.ok [clipA]) "V1" ["A"] none).stitchRan
      = true := by
  decide

/-- C3 (amended): once the in-flight unit reads a set stop flag at a
checkpoint (before the next clip, or before the next pass), nothing further
of that unit is processed; but queued-but-not-started units are not
discarded: a starting unit clears the stop flag, so its processing is
entirely independent of whether `stop()` had been called before it began. -/
theorem claim_C3 (env : Env) (vid : String)
    (jl : Except String (List ClipInfo)) (cids : List String)
    (lc : Option String) (b₁ b₂ : Bool) (clips : List ClipInfo)
    (cid cid2 : String) (rest : List String) (a : ClipAction)
    (acts : List ClipAction) (src : FPath) (s : PState)
    (hstp : (s.flag || env.stopReads s.t) = true) :
    runQueueProcessor env b₁ jl vid cids lc
      = runQueueProcessor env b₂ jl vid cids lc
    ∧ runClips env vid clips (cid :: rest) s = ⟨[], (checkStop env s).2, none⟩
    ∧ runActions env vid cid2 (a :: acts) src s
      = ⟨src, [], (checkStop env s).2, none⟩ :=
  ⟨rfl, by simp [runClips, checkStop, hstp],
   runActions_stop env vid cid2 a acts src s hstp⟩

/-- C3 witness: `claim_C3` with the stop flag raised before the checkpoint
(and the flag-clearing conjunct instantiated at the two flag values). -/
theorem claim_C3_witness :
    runQueueProcessor envStop true (Except.ok [clipA]) "V1" ["A"] none
      = runQueueProcessor envStop false (Except.ok [clipA]) "V1" ["A"] none
    ∧ runClips envStop "V1" [clipA] ["A"] pst0
      = ⟨[], (checkStop envStop pst0).2, none⟩
    ∧ runActions envStop "V1" "A" [⟨1, "char1"⟩] ["inputs", "videos", "V1"] pst0
      = ⟨["inputs", "videos", "V1"], [], (checkStop envStop pst0).2, none⟩ :=
  claim_C3 envStop "V1" (Except.ok [clipA]) ["A"] none true false [clipA]
    "A" "A" [] ⟨1, "char1"⟩ [] ["inputs", "videos", "V1"] pst0 (by decide)

/-! ## Claim C5 -/

/-- C5 counterexample: clip `A`'s mask side file is malformed, so loading it
raises outside the per-pass `try`; the exception escapes the clip loop —
clip `B`, although it would succeed, is never processed and nothing is
committed.  The unit-level handler still catches the exception (the worker
survives), but processing does not advance to the next clip. -/
theorem claim_C5_counterexample :
    (runQueueProcessor envBadMask false (Except.ok [clipA, clipB]) "V1"
        ["A", "B"] none).queueError = some "bad json"
    ∧ (runQueueProcessor envBadMask false (Except.ok [clipA, clipB]) "V1"
        ["A", "B"] none).state.committed = []
    ∧ (runQueueProcessor envBadMask false (Except.ok [clipA, clipB]) "V1"
        ["A", "B"] none).logs.map Prod.fst = ["A"] := by
  decide

/-- A clip whose mask side files all parse (or are absent) never lets an
exception escape: generation failures are caught inside the pass loop. -/
theorem runClip_no_raise (env : Env) (vid : String) (clip : ClipInfo)
    (s : PState)
    (hmask : ∀ a ∈ clip.actions,
      maskRaises env clip.clip_id a.pass_num = false) :
    (runClip env vid clip s).exn = none := by
  cases hex : fileExists env s (originalSourcePath vid clip) with
  | false => rw [runClip_src_missing env vid clip s hex]
  | true =>
    rw [runClip_run env vid clip s hex]
    obtain ⟨-, -, -, h4, -, -, -⟩ :=
      runActions_facts env vid clip.clip_id
        (clip.actions.insertionSort (fun a b => a.pass_num ≤ b.pass_num))
        (originalSourcePath vid clip) s
    obtain ⟨-, hexn⟩ :=
      commitStep_recs_exn env vid clip (originalSourcePath vid clip)
        (runActions env vid clip.clip_id
          (clip.actions.insertionSort (fun a b => a.pass_num ≤ b.pass_num))
          (originalSourcePath vid clip) s)
    rw [hexn]
    exact h4 (fun a ha => hmask a ((mem_insertionSort_actions clip a).mp ha))

/-- C5 (amended): only a mask-file parse error can escape a clip's
processing.  When the clip's mask side files all parse or are absent, no
exception escapes — generation-call failures are caught inside the per-pass
`try` — and the clip loop advances to the next clip of the unit; a clip
whose mask file is malformed instead aborts the remaining clips of the unit
(the exception is still caught by the unit-level handler, so the worker
itself survives). -/
theorem claim_C5 (env : Env) (vid : String) (clips : List ClipInfo)
    (cid : String) (rest : List String) (s : PState) (clip : ClipInfo)
    (hstp : (s.flag || env.stopReads s.t) = false)
    (hfind : clipsMapGet clips cid = some clip)
    (hmask : ∀ a ∈ clip.actions,
      maskRaises env clip.clip_id a.pass_num = false) :
    (runClip env vid clip (checkStop env s).2).exn = none
    ∧ runClips env vid clips (cid :: rest) s
      = ⟨(cid, (runClip env vid clip (checkStop env s).2).recs)
            :: (runClips env vid clips rest
                (runClip env vid clip (checkStop env s).2).st).logs,
         (runClips env vid clips rest
            (runClip env vid clip (checkStop env s).2).st).st,
         (runClips env vid clips rest
            (runClip env vid clip (checkStop env s).2).st).exn⟩ := by
  have hexn := runClip_no_raise env vid clip (checkStop env s).2 hmask
  refine ⟨hexn, ?_⟩
  simp only [checkStop, hstp] at hexn
  simp only [runClips, checkStop]
  simp [hstp, hfind, hexn]

/-- C5 witness: a unit of two clips whose masks are clean processes both
clips even though every generation attempt raises. -/
theorem claim_C5_witness :
    (runClip envFail "V1" clipA (checkStop envFail pst0).2).exn = none
    ∧ runClips envFail "V1" [clipA, clipB] ["A", "B"] pst0
      = ⟨("A", (runClip envFail "V1" clipA (checkStop envFail pst0).2).recs)
            :: (runClips envFail "V1" [clipA, clipB] ["B"]
                (runClip envFail "V1" clipA (checkStop envFail pst0).2).st).logs,
         (runClips envFail "V1" [clipA, clipB] ["B"]
            (runClip envFail "V1" clipA (checkStop envFail pst0).2).st).st,
         (runClips envFail "V1" [clipA, clipB] ["B"]
            (runClip envFail "V1" clipA (checkStop envFail pst0).2).st).exn⟩ :=
  claim_C5 envFail "V1" [clipA, clipB] "A" ["B"] pst0 clipA (by decide)
    (by decide) (by decide)

/-! ## Claim C8 -/

/-- C8: absence of the mask side file for a pass is not an error — the pass
still runs its generation attempt, with no mask forwarded (first conjunct);
a present, well-formed mask file is forwarded as loaded (second conjunct);
and a mask object holding only a `negative` key is truthy, so it is applied
to the workflow with an empty positive coordinate list rather than being
treated as "no mask" (remaining conjuncts). -/
theorem claim_C8 (env : Env) (vid cid : String) (a : ClipAction)
    (rest : List ClipAction) (src : FPath) (s : PState)
    (hstop : env.stopReads s.t = false) (hflag : s.flag = false)
    (hchar : (env.charExists ("custom_" ++ a.character ++ ".png")
        || env.charExists (a.character ++ ".png")) = true)
    (tmpl : Workflow) (vn im out : String) (vId : Option String)
    (sd : Option Int) (nowMs : Nat) (negPts : List (Int × Int)) :
    (env.maskFile cid a.pass_num = none →
      (runActions env vid cid (a :: rest) src s).recs.head?
        = some ⟨a.pass_num, src, none,
            passResultOf vid cid a.pass_num (env.passOutcome cid a.pass_num)⟩)
    ∧ (∀ m, env.maskFile cid a.pass_num = some (Except.ok m) →
      (runActions env vid cid (a :: rest) src s).recs.head?
        = some ⟨a.pass_num, src, some m,
            passResultOf vid cid a.pass_num (env.passOutcome cid a.pass_num)⟩)
    ∧ maskTruthy (some ⟨[("negative", negPts)]⟩) = true
    ∧ (buildWorkflow tmpl vn im vId out (some ⟨[("negative", negPts)]⟩)
        sd nowMs).coordinates = dumpsPoints []
    ∧ (buildWorkflow tmpl vn im vId out (some ⟨[("negative", negPts)]⟩)
        sd nowMs).neg_coordinates = dumpsPoints negPts := by
  refine ⟨?_, ?_, ?_, ?_, ?_⟩
  · intro hmask
    cases hp : env.passOutcome cid a.pass_num <;>
      simp [runActions, checkStop, hstop, hflag, hmask, hchar, hp, passResultOf]
  · intro m hmask
    cases hp : env.passOutcome cid a.pass_num <;>
      simp [runActions, checkStop, hstop, hflag, hmask, hchar, hp, passResultOf]
  · simp [maskTruthy]
  · simp [buildWorkflow, maskTruthy, MaskPoints.get]
  · simp [buildWorkflow, maskTruthy, MaskPoints.get]

/-- C8 witness: `claim_C8` at a concrete pass with no mask file, and at a
concrete negative-only mask object. -/
theorem claim_C8_witness :
    (runActions envOk "V1" "A" [⟨1, "char1"⟩]
        ["inputs", "videos", "V1", "TrimmedClips", "A.mp4"] pst0).recs.head?
      = some ⟨1, ["inputs", "videos", "V1", "TrimmedClips", "A.mp4"], none,
          passResultOf "V1" "A" 1 (envOk.passOutcome "A" 1)⟩
    ∧ maskTruthy (some ⟨[("negative", [(3, 4)])]⟩) = true
    ∧ (buildWorkflow tmplW "v.mp4" "c.png" (some "Video1") "DF_x"
        (some ⟨[("negative", [(3, 4)])]⟩) none 5).coordinates = dumpsPoints []
    ∧ (buildWorkflow tmplW "v.mp4" "c.png" (some "Video1") "DF_x"
        (some ⟨[("negative", [(3, 4)])]⟩) none 5).neg_coordinates
      = dumpsPoints [(3, 4)] :=
  have h := claim_C8 envOk "V1" "A" ⟨1, "char1"⟩ []
    ["inputs", "videos", "V1", "TrimmedClips", "A.mp4"] pst0 (by decide)
    (by decide) (by decide) tmplW "v.mp4" "c.png" "DF_x" (some "Video1")
    none 5 [(3, 4)]
  ⟨h.1 (by decide), h.2.2.1, h.2.2.2.1, h.2.2.2.2⟩

/-! ## Path disjointness -/

/-- Appending the same suffix to different strings keeps them different. -/
theorem append_right_cancel_str (a b s : String) (h : a ++ s = b ++ s) :
    a = b := by
  have hd := congrArg String.data h
  rw [String.data_append, String.data_append] at hd
  exact String.ext (List.append_cancel_right hd)

/-- A name ending in `.mp4` is never `list.txt`. -/
theorem append_mp4_ne_listtxt (cid : String) : cid ++ ".mp4" ≠ "list.txt" := by
  intro h
  have hd := congrArg String.data h
  rw [String.data_append] at hd
  have h4 : (cid.data ++ ".mp4".data).getLast? = some '4' := by
    rw [show ".mp4".data = ['.', 'm', 'p', '4'] from rfl,
      show cid.data ++ ['.', 'm', 'p', '4']
          = (cid.data ++ ['.', 'm', 'p']) ++ ['4'] by simp,
      List.getLast?_concat]
  rw [hd] at h4
  exact absurd h4 (by decide)

/-- Distinct clip ids give distinct per-clip artifact paths. -/
theorem clipFilePath_ne (vid : String) {cid₁ cid₂ : String} (h : cid₁ ≠ cid₂) :
    clipFilePath vid cid₁ ≠ clipFilePath vid cid₂ := by
  intro he
  apply h
  apply append_right_cancel_str cid₁ cid₂ ".mp4"
  simpa [clipFilePath] using he

/-- A fallback source path (under the inputs root) is never a per-clip
artifact path (under the outputs root). -/
theorem stitchSourcePath_ne_clipFilePath (vid vid' cid : String) (c : SClip) :
    stitchSourcePath vid c ≠ clipFilePath vid' cid := by
  intro h
  simp [stitchSourcePath, clipFilePath] at h

/-- A per-clip artifact path is never the playlist path. -/
theorem clipFilePath_ne_listPath (vid vid' cid : String) :
    clipFilePath vid cid ≠ listPath vid' := by
  intro h
  simp only [clipFilePath, listPath, List.cons.injEq, and_true] at h
  exact append_mp4_ne_listtxt cid h.2.2

/-- A per-clip artifact path differs from the final artifact path unless the
clip id is literally `<vid>_final`. -/
theorem clipFilePath_ne_finalPath (vid cid : String)
    (h : cid ≠ vid ++ "_final") :
    clipFilePath vid cid ≠ finalPath vid := by
  intro he
  apply h
  apply append_right_cancel_str cid (vid ++ "_final") ".mp4"
  have h3 : cid ++ ".mp4" = vid ++ "_final.mp4" := by
    simpa [clipFilePath, finalPath] using he
  rw [h3, show "_final.mp4" = "_final" ++ ".mp4" from rfl,
    ← String.append_assoc]

/-- A fallback source path is never the playlist or final artifact path. -/
theorem stitchSourcePath_ne_outPaths (vid vid' : String) (c : SClip) :
    stitchSourcePath vid c ≠ listPath vid'
    ∧ stitchSourcePath vid c ≠ finalPath vid' := by
  constructor <;> · intro h; simp [stitchSourcePath, listPath, finalPath] at h

/-- The playlist path is never the final artifact path. -/
theorem listPath_ne_finalPath (vid vid' : String) :
    listPath vid ≠ finalPath vid' := by
  intro h
  simp only [listPath, finalPath, List.cons.injEq, and_true] at h
  have h3 := h.2.2.symm
  rw [show "_final.mp4" = "_final" ++ ".mp4" from rfl, ← String.append_assoc] at h3
  exact append_mp4_ne_listtxt (vid' ++ "_final") h3

/-! ## Stitch-loop step lemmas -/

/-- One stitch-loop iteration changes the filesystem only at its own clip's
artifact path. -/
theorem stitchClipStep_fs_off (env : StitchEnv) (vid : String) (fps : Int)
    (acc : StitchAcc) (c : SClip) (p : FPath)
    (hp : p ≠ clipFilePath vid c.clip_id) :
    (stitchClipStep env vid fps acc c).fs p = acc.fs p := by
  unfold stitchClipStep
  cases h1 : acc.fs (clipFilePath vid c.clip_id) with
  | some v => rfl
  | none =>
    cases h2 : acc.fs (stitchSourcePath vid c) with
    | some sc =>
      cases h3 : env.encodeTool sc fps with
      | some w => simp [fsUpdate, hp, h3]
      | none => simp [fsUpdate, hp, h3]
    | none => rfl

/-- After its iteration, a clip's artifact path holds exactly `effStore` of
the filesystem the iteration started from. -/
theorem stitchClipStep_fs_cf (env : StitchEnv) (vid : String) (fps : Int)
    (acc : StitchAcc) (c : SClip) :
    (stitchClipStep env vid fps acc c).fs (clipFilePath vid c.clip_id)
      = effStore env vid fps acc.fs c := by
  unfold stitchClipStep effStore
  cases h1 : acc.fs (clipFilePath vid c.clip_id) with
  | some v => exact h1
  | none =>
    cases h2 : acc.fs (stitchSourcePath vid c) with
    | some sc =>
      cases h3 : env.encodeTool sc fps with
      | some w => simp [fsUpdate, h3]
      | none => simp [fsUpdate, h3]
    | none => exact h1

/-- One stitch-loop iteration appends to the playlist exactly the
`effStore` entry of its clip, when there is one. -/
theorem stitchClipStep_entries (env : StitchEnv) (vid : String) (fps : Int)
    (acc : StitchAcc) (c : SClip) :
    (stitchClipStep env vid fps acc c).entries
      = acc.entries ++ ((effStore env vid fps acc.fs c).map
          (fun w => (clipFilePath vid c.clip_id, w))).toList := by
  unfold stitchClipStep effStore
  cases h1 : acc.fs (clipFilePath vid c.clip_id) with
  | some v => simp
  | none =>
    cases h2 : acc.fs (stitchSourcePath vid c) with
    | some sc =>
      cases h3 : env.encodeTool sc fps with
      | some w => simp [fsUpdate, h3]
      | none => simp [h3]
    | none => simp

/-- One stitch-loop iteration invokes the encode tool exactly when its
clip's artifact is missing and its source exists. -/
theorem stitchClipStep_encLog (env : StitchEnv) (vid : String) (fps : Int)
    (acc : StitchAcc) (c : SClip) :
    (stitchClipStep env vid fps acc c).encLog
      = acc.encLog ++ (if ((acc.fs (clipFilePath vid c.clip_id)).isNone
            && (acc.fs (stitchSourcePath vid c)).isSome) = true
          then [c.clip_id] else []) := by
  unfold stitchClipStep
  cases h1 : acc.fs (clipFilePath vid c.clip_id) with
  | some v => simp
  | none =>
    cases h2 : acc.fs (stitchSourcePath vid c) with
    | some sc =>
      cases h3 : env.encodeTool sc fps with
      | some w => simp [h3]
      | none => simp [h3]
    | none => simp

/-- `effStore` depends on the filesystem only at the clip's artifact path
and its fallback source path. -/
theorem effStore_congr (env : StitchEnv) (vid : String) (fps : Int)
    (fs fs' : FS) (c : SClip)
    (h1 : fs' (clipFilePath vid c.clip_id) = fs (clipFilePath vid c.clip_id))
    (h2 : fs' (stitchSourcePath vid c) = fs (stitchSourcePath vid c)) :
    effStore env vid fps fs' c = effStore env vid fps fs c := by
  unfold effStore
  rw [h1, h2]

/-- Facts about the whole stitch loop when clip ids are distinct: the
playlist entries and the encode-tool invocations are determined by
`effStore` over the starting filesystem; each clip's artifact path ends up
holding its `effStore` value; and all other paths are untouched. -/
theorem stitch_fold_facts (env : StitchEnv) (vid : String) (fps : Int) :
    ∀ (clips : List SClip) (acc : StitchAcc),
      (clips.map SClip.clip_id).Nodup →
      ((clips.foldl (stitchClipStep env vid fps) acc).entries
          = acc.entries ++ clips.flatMap (fun c =>
              ((effStore env vid fps acc.fs c).map
                (fun w => (clipFilePath vid c.clip_id, w))).toList))
      ∧ ((clips.foldl (stitchClipStep env vid fps) acc).encLog
          = acc.encLog ++ (clips.filter (fun c =>
              (acc.fs (clipFilePath vid c.clip_id)).isNone
                && (acc.fs (stitchSourcePath vid c)).isSome)).map SClip.clip_id)
      ∧ (∀ c ∈ clips,
          (clips.foldl (stitchClipStep env vid fps) acc).fs
              (clipFilePath vid c.clip_id)
            = effStore env vid fps acc.fs c)
      ∧ (∀ p, (∀ c ∈ clips, p ≠ clipFilePath vid c.clip_id) →
          (clips.foldl (stitchClipStep env vid fps) acc).fs p = acc.fs p)
  | [], acc, _ => by simp
  | c :: t, acc, hnd => by
    rw [List.map_cons, List.nodup_cons] at hnd
    obtain ⟨hnotin, hndt⟩ := hnd
    have hne : ∀ c' ∈ t,
        clipFilePath vid c.clip_id ≠ clipFilePath vid c'.clip_id := by
      intro c' hc'
      refine clipFilePath_ne vid ?_
      intro he
      exact hnotin (he ▸ List.mem_map_of_mem SClip.clip_id hc')
    obtain ⟨IH1, IH2, IH3, IH4⟩ :=
      stitch_fold_facts env vid fps t (stitchClipStep env vid fps acc c) hndt
    have hcf : ∀ c' ∈ t,
        (stitchClipStep env vid fps acc c).fs (clipFilePath vid c'.clip_id)
          = acc.fs (clipFilePath vid c'.clip_id) := by
      intro c' hc'
      exact stitchClipStep_fs_off env vid fps acc c _
        (fun he => (hne c' hc') he.symm)
    have hsp : ∀ c' : SClip,
        (stitchClipStep env vid fps acc c).fs (stitchSourcePath vid c')
          = acc.fs (stitchSourcePath vid c') := by
      intro c'
      exact stitchClipStep_fs_off env vid fps acc c _
        (stitchSourcePath_ne_clipFilePath vid vid c.clip_id c')
    have heff : ∀ c' ∈ t,
        effStore env vid fps (stitchClipStep env vid fps acc c).fs c'
          = effStore env vid fps acc.fs c' := by
      intro c' hc'
      exact effStore_congr env vid fps acc.fs _ c' (hcf c' hc') (hsp c')
    refine ⟨?_, ?_, ?_, ?_⟩
    · rw [List.foldl_cons, IH1, stitchClipStep_entries, List.flatMap_cons,
        List.append_assoc]
      congr 2
      exact List.flatMap_congr (fun c' hc' => by rw [heff c' hc'])
    · rw [List.foldl_cons, IH2, stitchClipStep_encLog, List.filter_cons]
      have hcond : ∀ c' ∈ t,
          (((stitchClipStep env vid fps acc c).fs
              (clipFilePath vid c'.clip_id)).isNone
            && ((stitchClipStep env vid fps acc c).fs
              (stitchSourcePath vid c')).isSome)
          = ((acc.fs (clipFilePath vid c'.clip_id)).isNone
            && (acc.fs (stitchSourcePath vid c')).isSome) := by
        intro c' hc'
        rw [hcf c' hc', hsp c']
      rw [List.filter_congr hcond]
      by_cases hhead : ((acc.fs (clipFilePath vid c.clip_id)).isNone
          && (acc.fs (stitchSourcePath vid c)).isSome) = true
      · rw [if_pos hhead, if_pos hhead, List.map_cons, List.append_assoc]
        rfl
      · rw [if_neg hhead, if_neg hhead, List.append_nil]
    · intro c' hc'
      rcases List.mem_cons.mp hc' with rfl | hmem
      · rw [List.foldl_cons,
          IH4 (clipFilePath vid c'.clip_id) (fun c'' hc'' => hne c'' hc''),
          stitchClipStep_fs_cf]
      · rw [List.foldl_cons, IH3 c' hmem, heff c' hmem]
    · intro p hp
      rw [List.foldl_cons,
        IH4 p (fun c'' hc'' => hp c'' (List.mem_cons_of_mem c hc'')),
        stitchClipStep_fs_off env vid fps acc c p
          (hp c (List.mem_cons_self c t))]

/-- `stitch_video` changes nothing outside the playlist, final-artifact,
and per-clip artifact paths. -/
theorem stitch_fs_off (env : StitchEnv) (fs0 : FS) (vid : String) (job : SJob)
    (p : FPath) (hdir : env.outDirExists = true)
    (hp1 : p ≠ listPath vid) (hp2 : p ≠ finalPath vid) :
    (stitch_video env fs0 vid job).1 p
      = (job.clips.foldl (stitchClipStep env vid job.fps) ⟨fs0, [], []⟩).fs p := by
  simp only [stitch_video, hdir, if_true]
  cases hw : (env.concatTool ((job.clips.foldl (stitchClipStep env vid job.fps)
      ⟨fs0, [], []⟩).entries.map Prod.snd)).2 with
  | some w => split <;> simp [fsUpdate, hp1, hp2, hw]
  | none => split <;> simp [fsUpdate, hp1, hw]

/-- After `stitch_video`, the final artifact path holds the concat tool's
output when it wrote one, and is otherwise untouched by the concat step. -/
theorem stitch_fs_final (env : StitchEnv) (fs0 : FS) (vid : String)
    (job : SJob) (hdir : env.outDirExists = true) :
    (stitch_video env fs0 vid job).1 (finalPath vid)
      = match (env.concatTool ((job.clips.foldl (stitchClipStep env vid job.fps)
          ⟨fs0, [], []⟩).entries.map Prod.snd)).2 with
        | some w => some w
        | none => (job.clips.foldl (stitchClipStep env vid job.fps)
            ⟨fs0, [], []⟩).fs (finalPath vid) := by
  simp only [stitch_video, hdir, if_true]
  cases hw : (env.concatTool ((job.clips.foldl (stitchClipStep env vid job.fps)
      ⟨fs0, [], []⟩).entries.map Prod.snd)).2 with
  | some w => split <;> simp [fsUpdate, hw]
  | none =>
    split <;> simp [fsUpdate, hw, (listPath_ne_finalPath vid vid).symm]

/-- The encode-invocation log of `stitch_video` is the loop's log. -/
theorem stitch_encLog_eq (env : StitchEnv) (fs0 : FS) (vid : String)
    (job : SJob) (hdir : env.outDirExists = true) :
    (stitch_video env fs0 vid job).2.1
      = (job.clips.foldl (stitchClipStep env vid job.fps)
          ⟨fs0, [], []⟩).encLog := by
  simp only [stitch_video, hdir, if_true]
  split <;> rfl

/-! ## Claim C4 -/

/-- C4 counterexample: the concat tool exits non-zero after writing partial
output at the final artifact path (as `ffmpeg -y` can); `stitch_video` does
raise a single terminal error, but the previously valid final artifact
("GOOD") has been replaced in place by the partial output — no temp-name
plus rename protects it. -/
theorem claim_C4_counterexample :
    (stitch_video stEnvBad fsC4 "V1" jobEmpty).2.2
      = Except.error "Stitching process failed"
    ∧ fsC4 (finalPath "V1") = some "GOOD"
    ∧ (stitch_video stEnvBad fsC4 "V1" jobEmpty).1 (finalPath "V1")
      = some "PARTIAL" := by
  decide

/-- C4 (amended): when the concat tool exits non-zero, `stitch_video`
surfaces a single terminal error — but the output is written in place at the
final artifact path: whatever the tool wrote there (even from a failed run)
replaces the previous final artifact; no temporary name or rename-on-success
is used. -/
theorem claim_C4 (env : StitchEnv) (fs0 : FS) (vid : String) (job : SJob)
    (hdir : env.outDirExists = true) :
    ((env.concatTool (((job.clips.foldl (stitchClipStep env vid job.fps)
          ⟨fs0, [], []⟩).entries).map Prod.snd)).1 ≠ 0 →
      (stitch_video env fs0 vid job).2.2
        = Except.error "Stitching process failed")
    ∧ (∀ w, (env.concatTool (((job.clips.foldl (stitchClipStep env vid job.fps)
          ⟨fs0, [], []⟩).entries).map Prod.snd)).2 = some w →
      (stitch_video env fs0 vid job).1 (finalPath vid) = some w) := by
  constructor
  · intro h
    simp only [stitch_video, hdir, if_true]
    rw [if_pos h]
  · intro w hw
    simp only [stitch_video, hdir, if_true]
    rw [hw]
    by_cases hc : (env.concatTool (((job.clips.foldl (stitchClipStep env vid job.fps)
        ⟨fs0, [], []⟩).entries).map Prod.snd)).1 ≠ 0
    · rw [if_pos hc]
      simp [fsUpdate]
    · rw [if_neg hc]
      simp [fsUpdate]

/-- C4 witness: `claim_C4` at the concrete failing environment. -/
theorem claim_C4_witness :
    (stitch_video stEnvBad fsC4 "V1" jobEmpty).2.2
      = Except.error "Stitching process failed"
    ∧ (stitch_video stEnvBad fsC4 "V1" jobEmpty).1 (finalPath "V1")
      = some "PARTIAL" :=
  ⟨(claim_C4 stEnvBad fsC4 "V1" jobEmpty (by decide)).1 (by decide),
   (claim_C4 stEnvBad fsC4 "V1" jobEmpty (by decide)).2 "PARTIAL" (by decide)⟩

/-! ## Claim C9 -/

/-- C9: on an unchanged project (distinct clip ids, none literally named
`<vid>_final`), running `stitch_video` twice produces the same final
artifact, and the second run never invokes the encode tool for a clip whose
substitute `<clip_id>.mp4` already exists on disk after the first run. -/
theorem claim_C9 (env : StitchEnv) (fs0 : FS) (vid : String) (job : SJob)
    (hdir : env.outDirExists = true)
    (hnd : (job.clips.map SClip.clip_id).Nodup)
    (hfin : ∀ c ∈ job.clips, c.clip_id ≠ vid ++ "_final") :
    (stitch_video env (stitch_video env fs0 vid job).1 vid job).1 (finalPath vid)
      = (stitch_video env fs0 vid job).1 (finalPath vid)
    ∧ ∀ cid, ((stitch_video env fs0 vid job).1 (clipFilePath vid cid)).isSome = true →
        cid ∉ (stitch_video env (stitch_video env fs0 vid job).1 vid job).2.1 := by
  set fs1 := (stitch_video env fs0 vid job).1 with hfs1
  obtain ⟨F1e, F1l, F1cf, F1off⟩ :=
    stitch_fold_facts env vid job.fps job.clips ⟨fs0, [], []⟩ hnd
  obtain ⟨F2e, F2l, F2cf, F2off⟩ :=
    stitch_fold_facts env vid job.fps job.clips ⟨fs1, [], []⟩ hnd
  have hfs1cf : ∀ c ∈ job.clips,
      fs1 (clipFilePath vid c.clip_id) = effStore env vid job.fps fs0 c := by
    intro c hc
    rw [hfs1, stitch_fs_off env fs0 vid job _ hdir
      (clipFilePath_ne_listPath vid vid c.clip_id)
      (clipFilePath_ne_finalPath vid c.clip_id (hfin c hc))]
    exact F1cf c hc
  have hfs1sp : ∀ c : SClip,
      fs1 (stitchSourcePath vid c) = fs0 (stitchSourcePath vid c) := by
    intro c
    rw [hfs1, stitch_fs_off env fs0 vid job _ hdir
      (stitchSourcePath_ne_outPaths vid vid c).1
      (stitchSourcePath_ne_outPaths vid vid c).2]
    exact F1off _ (fun c'' _ => stitchSourcePath_ne_clipFilePath vid vid c''.clip_id c)
  have heff : ∀ c ∈ job.clips,
      effStore env vid job.fps fs1 c = effStore env vid job.fps fs0 c := by
    intro c hc
    cases h0 : effStore env vid job.fps fs0 c with
    | some v =>
      unfold effStore
      rw [hfs1cf c hc, h0]
    | none =>
      have hcf0 : fs0 (clipFilePath vid c.clip_id) = none := by
        cases hv : fs0 (clipFilePath vid c.clip_id) with
        | none => rfl
        | some v =>
          rw [effStore, hv] at h0
          exact absurd h0 (by simp)
      unfold effStore
      rw [hfs1cf c hc, h0, hfs1sp c]
      unfold effStore at h0
      rw [hcf0] at h0
      exact h0
  have hE : (job.clips.foldl (stitchClipStep env vid job.fps) ⟨fs1, [], []⟩).entries
      = (job.clips.foldl (stitchClipStep env vid job.fps) ⟨fs0, [], []⟩).entries := by
    rw [F2e, F1e]
    simp only [List.nil_append]
    exact List.flatMap_congr (fun c hc => by rw [heff c hc])
  constructor
  · rw [stitch_fs_final env fs1 vid job hdir, hE]
    cases hw : (env.concatTool ((job.clips.foldl (stitchClipStep env vid job.fps)
        ⟨fs0, [], []⟩).entries.map Prod.snd)).2 with
    | some w =>
      rw [hfs1, stitch_fs_final env fs0 vid job hdir, hw]
    | none =>
      exact F2off (finalPath vid)
        (fun c hc => (clipFilePath_ne_finalPath vid c.clip_id (hfin c hc)).symm)
  · intro cid hcid
    rw [stitch_encLog_eq env fs1 vid job hdir, F2l]
    simp only [List.nil_append]
    intro hmem
    obtain ⟨c, hcfilter, hcid_eq⟩ := List.mem_map.mp hmem
    have hcond := List.of_mem_filter hcfilter
    obtain ⟨hc1, hc2⟩ : fs1 (clipFilePath vid c.clip_id) = none
        ∧ (fs1 (stitchSourcePath vid c)).isSome = true := by
      simpa using hcond
    rw [← hcid_eq, hc1] at hcid
    simp at hcid

/-- C9 witness: `claim_C9` on a concrete two-clip project where clip `A`
has a committed artifact and clip `B` only a raw source: the first run
re-encodes `B` into a substitute, and the second run neither changes the
final artifact nor re-invokes the encode tool on `B`. -/
theorem claim_C9_witness :
    (stitch_video stEnvOk (stitch_video stEnvOk fsC9 "V1" jobC9).1 "V1"
        jobC9).1 (finalPath "V1")
      = (stitch_video stEnvOk fsC9 "V1" jobC9).1 (finalPath "V1")
    ∧ ((stitch_video stEnvOk fsC9 "V1" jobC9).1
          (clipFilePath "V1" "B")).isSome = true
    ∧ "B" ∉ (stitch_video stEnvOk (stitch_video stEnvOk fsC9 "V1" jobC9).1
          "V1" jobC9).2.1 :=
  ⟨(claim_C9 stEnvOk fsC9 "V1" jobC9 (by decide) (by decide) (by decide)).1,
   by decide,
   (claim_C9 stEnvOk fsC9 "V1" jobC9 (by decide) (by decide) (by decide)).2
     "B" (by decide)⟩

end DFS
